import Mathlib

/-!
# Verification of the daydreams-facilitator "upto" payment engine

Shallow embedding of the repository's TypeScript sources:

* `src/src/upto/settlement.ts` — the `settleUptoSession` orchestrator
  (session load, status gate, settle call with catch, receipt commit,
  final status decision, persistence).
* the `UptoEvmScheme` class (`verify` / `settle`) — EIP-2612 permit
  verification and the permit / allowance / transferFrom settlement flow.

JavaScript `bigint` values are modelled as `Int`; JSON strings as `String`;
optional / possibly-`undefined` fields as `Option`; a thrown exception as
the `error` branch of `Except` (or an explicit `CallResult`).  External
library calls (the facilitator client, the viem `getAddress` /
`parseSignature` helpers, the chain signer) are parameters of the
embedding, so the theorems quantify over their behaviour.
-/

namespace Daydreams

/-- A JavaScript thrown value, as observed by a `catch` clause: either an
`Error` carrying a `.message` string, or any other value. -/
inductive JsThrown where
  | errorWith (msg : String)
  | nonError
  deriving DecidableEq, Repr

/-- Outcome of awaiting an external asynchronous call: a value, or a throw. -/
inductive CallResult (α : Type) where
  | ok (value : α)
  | thrown (e : JsThrown)
  deriving DecidableEq, Repr

/-- The `extra` hints of `PaymentRequirements` — the fields the upto-EVM scheme
reads (`name`, `version`, `maxAmountRequired`, legacy `maxAmount`). -/
structure RequirementsExtra where
  name : Option String
  version : Option String
  maxAmountRequired : Option String
  maxAmount : Option String
  deriving DecidableEq, Repr

/-- Embedding of `PaymentRequirements` from `@x402/core/types`, restricted to the fields
the embedded code reads. `amount` is a decimal string of base units. -/
structure PaymentRequirements where
  scheme : String
  network : String
  asset : String
  payTo : String
  amount : String
  extra : Option RequirementsExtra
  deriving DecidableEq, Repr

/-- Embedding of `UptoEvmAuthorization` (all fields as they cross JSON, possibly absent
since the code reads them through a `Partial` cast). -/
structure UptoEvmAuthorization where
  from_ : Option String
  to_ : Option String
  value : Option String
  validAfter : Option String
  validBefore : Option String
  nonce : Option String
  deriving DecidableEq, Repr

/-- The scheme-specific `payload.payload` object of an upto-EVM payment:
an authorization plus a detached signature, each possibly absent. -/
structure UptoEvmPayloadRaw where
  authorization : Option UptoEvmAuthorization
  signature : Option String
  deriving DecidableEq, Repr

/-- Embedding of `PaymentPayload`, restricted to the fields the embedded code reads:
the pinned `accepted` requirements and the scheme-specific payload. -/
structure PaymentPayload where
  accepted : PaymentRequirements
  payload : UptoEvmPayloadRaw
  deriving DecidableEq, Repr

/-- The `SettleResponse` wire type. -/
structure SettleResponse where
  success : Bool
  errorReason : Option String
  transaction : String
  network : String
  payer : Option String
  deriving DecidableEq, Repr

/-- The `VerifyResponse` wire type. -/
structure VerifyResponse where
  isValid : Bool
  invalidReason : Option String
  payer : Option String
  deriving DecidableEq, Repr

/-- The `lastSettlement` record stored on a session. -/
structure LastSettlement where
  atMs : Int
  reason : String
  receipt : SettleResponse
  deriving DecidableEq, Repr

/-- An upto session record (`src/src/upto/sessionStore.ts` shape, as used by
`settlement.ts`). `status` is one of the literal strings `"open"`,
`"settling"`, `"closed"`. -/
structure Session where
  paymentPayload : PaymentPayload
  paymentRequirements : PaymentRequirements
  cap : Int
  deadline : Int
  settledTotal : Int
  pendingSpent : Int
  status : String
  lastSettlement : Option LastSettlement
  deriving DecidableEq, Repr

/-- The session store, seen through the `get`/`set` interface that
`settleUptoSession` uses: a keyed map of sessions. -/
def UptoSessionStore : Type := String → Option Session

/-- Embedding of `store.get(id)`. -/
def storeGet (store : UptoSessionStore) (id : String) : Option Session :=
  store id

/-- Embedding of `store.set(id, session)`: whole-record update under the key. -/
def storeSet (store : UptoSessionStore) (id : String) (s : Session) :
    UptoSessionStore :=
  fun k => if k = id then some s else store k

/-- The facilitator client consumed by the orchestrator: its `settle`
method, modelled as a function from the call's arguments to the awaited
outcome (a response, or a throw). -/
def UptoFacilitatorClient : Type :=
  PaymentPayload → PaymentRequirements → CallResult SettleResponse

/-- Result of one `settleUptoSession` run: the store after the final
persist, plus the list of `facilitatorClient.settle` calls it issued
(argument pairs, in order). -/
structure SettleRun where
  store : UptoSessionStore
  calls : List (PaymentPayload × PaymentRequirements)

/-- Embedding of `settleUptoSession` from `src/src/upto/settlement.ts`.  `nowMs` stands
for `Date.now()`; the code derives `nowSec = floor(nowMs / 1000)` for the
deadline comparison.  The function never throws (all client throws are
caught), which the embedding reflects by returning a plain `SettleRun`. -/
def settleUptoSession (store : UptoSessionStore)
    (facilitatorClient : UptoFacilitatorClient) (sessionId : String)
    (reason : String) (closeAfter : Bool) (deadlineBufferSec : Int)
    (nowMs : Int) : SettleRun :=
  match storeGet store sessionId with
  | none => ⟨store, []⟩
  | some session =>
    if session.status ≠ "open" then ⟨store, []⟩
    else if session.pendingSpent ≤ 0 then
      if closeAfter then
        ⟨storeSet store sessionId { session with status := "closed" }, []⟩
      else ⟨store, []⟩
    else
      let session1 := { session with status := "settling" }
      let store1 := storeSet store sessionId session1
      let settleAmount := session1.pendingSpent
      let settleRequirements :=
        { session1.paymentRequirements with amount := toString settleAmount }
      let receipt : SettleResponse :=
        match facilitatorClient session1.paymentPayload settleRequirements with
        | .ok r => r
        | .thrown e =>
          { success := false
            errorReason := some (match e with
              | .errorWith msg => msg
              | .nonError => "settlement_failed")
            transaction := ""
            network := session1.paymentPayload.accepted.network
            payer := none }
      let session2 : Session :=
        if receipt.success then
          { session1 with
              settledTotal := session1.settledTotal + settleAmount
              pendingSpent := 0 }
        else session1
      let session3 : Session :=
        { session2 with lastSettlement := some ⟨nowMs, reason, receipt⟩ }
      let nowSec := Int.fdiv nowMs 1000
      let finalStatus :=
        if closeAfter ∨ session3.cap ≤ session3.settledTotal ∨
            session3.deadline ≤ nowSec + deadlineBufferSec
        then "closed" else "open"
      let session4 := { session3 with status := finalStatus }
      ⟨storeSet store1 sessionId session4, [(session1.paymentPayload, settleRequirements)]⟩

/-- Sample `extra` carrying an EIP-712 domain. -/
def sampleExtra : RequirementsExtra :=
  { name := some "USD Coin", version := some "2"
    maxAmountRequired := none, maxAmount := none }

/-- Sample payment requirements for the witnesses. -/
def sampleRequirements : PaymentRequirements :=
  { scheme := "upto", network := "eip155:8453"
    asset := "0xa0b86991c6218b36c1d19d4a2e9eb0ce3606eb48"
    payTo := "0x00000000000000000000000000000000000000b0"
    amount := "250000", extra := some sampleExtra }

/-- Sample authorization for the witnesses. -/
def sampleAuth : UptoEvmAuthorization :=
  { from_ := some "0x00000000000000000000000000000000000000a0"
    to_ := some "0x00000000000000000000000000000000000000b0"
    value := some "1000000", validAfter := none
    validBefore := some "99999999999", nonce := some "0" }

/-- Sample payment payload for the witnesses. -/
def samplePayload : PaymentPayload :=
  { accepted := sampleRequirements
    payload := { authorization := some sampleAuth, signature := some "0xsig" } }

/-- Sample open session with accrued pending spend. -/
def sampleSession : Session :=
  { paymentPayload := samplePayload
    paymentRequirements := sampleRequirements
    cap := 1000000, deadline := 99999999999
    settledTotal := 0, pendingSpent := 300000
    status := "open", lastSettlement := none }

/-- Store holding `sampleSession` under key `"s1"`. -/
def sampleStore : UptoSessionStore :=
  fun k => if k = "s1" then some sampleSession else none

/-- A facilitator client whose settle always succeeds. -/
def clientOk : UptoFacilitatorClient :=
  fun p _ =>
    .ok { success := true, errorReason := none, transaction := "0xabc"
          network := p.accepted.network, payer := none }

/-- A facilitator client whose settle returns a failed receipt. -/
def clientFails : UptoFacilitatorClient :=
  fun p _ =>
    .ok { success := false, errorReason := some "insufficient_allowance"
          transaction := "", network := p.accepted.network, payer := none }

/-- A facilitator client whose settle throws an `Error` with message. -/
def clientThrows : UptoFacilitatorClient :=
  fun _ _ => .thrown (.errorWith "boom")

/-- Digits-only decimal reading of a character list. -/
def decDigitsToNat (l : List Char) : Option Nat :=
  if l ≠ [] ∧ l.all (·.isDigit) then
    some (l.foldl (fun acc c => acc * 10 + (c.toNat - 48)) 0)
  else none

/-- Model of `BigInt(s)` on an optionally signed decimal digit string: `none` models
the `SyntaxError` throw on any other input.  (JavaScript `BigInt` also
accepts `0x`/`0o`/`0b` literals and surrounding whitespace; the protocol's
monetary fields are plain decimal strings, so those forms are outside this
model.) -/
def parseBigIntString (s : String) : Option Int :=
  match s.data with
  | '-' :: rest => (decDigitsToNat rest).map (fun n => -(n : Int))
  | '+' :: rest => (decDigitsToNat rest).map (fun n => (n : Int))
  | l => (decDigitsToNat l).map (fun n => (n : Int))

/-- Embedding of `toBigInt` from the scheme module: `0` for a missing or falsy input,
`BigInt(value)` otherwise with the throw caught to `0`. -/
def toBigInt (value : Option String) : Int :=
  match value with
  | none => 0
  | some s =>
    if s = "" then 0
    else match parseBigIntString s with
      | some n => n
      | none => 0

/-- JavaScript truthiness test for an optional string: `undefined` and the
empty string are falsy. -/
def jsFalsy : Option String → Bool
  | none => true
  | some s => s = ""

/-- Model of `Number(x)` followed by the `Number.isFinite` guard, on an optional
string: `none` models a non-finite result.  `Number(undefined)` is `NaN`;
`Number("")` is `0`; otherwise an optionally signed decimal integer
parses to itself (non-integral and exotic numeric forms are outside this
model). -/
def jsNumberInt : Option String → Option Int
  | none => none
  | some s => if s = "" then some 0 else parseBigIntString s

/-- Model of `split(":")` on the underlying character list: split at every colon,
keeping empty fragments (so `"a:"` gives `["a", ""]` and `""` gives
`[""]`), exactly as JavaScript's `String.prototype.split`. -/
def splitColonChars : List Char → List (List Char)
  | [] => [[]]
  | c :: rest =>
    let r := splitColonChars rest
    if c = ':' then [] :: r
    else match r with
      | [] => [[c]]
      | h :: t => (c :: h) :: t

/-- Model of `Number(requirements.network.split(":")[1])` with the finiteness
guard. -/
def chainIdOf (network : String) : Option Int :=
  jsNumberInt (((splitColonChars network.data).map String.mk).get? 1)

/-- The viem `parseSignature` result: `r`, `s`, and optional `v` / `yParity`. -/
structure ParsedSignature where
  v : Option Int
  yParity : Option Int
  r : String
  s : String
  deriving DecidableEq, Repr

/-- Arguments of the `verifyTypedData` signer call for the Permit domain. -/
structure PermitVerifyCall where
  address : String
  domainName : String
  domainVersion : String
  chainId : Int
  verifyingContract : String
  owner : String
  spender : String
  value : Int
  nonce : Int
  deadline : Int
  signature : String
  deriving DecidableEq, Repr

/-- Arguments of the `writeContract` call for `permit`. -/
structure PermitWriteCall where
  address : String
  owner : String
  spender : String
  value : Int
  deadline : Int
  v : Int
  r : String
  s : String
  deriving DecidableEq, Repr

/-- Arguments of the `writeContract` call for `transferFrom`. -/
structure TransferFromCall where
  address : String
  from_ : String
  to_ : String
  value : Int
  deriving DecidableEq, Repr

/-- Arguments of the `readContract` call for `allowance`. -/
structure AllowanceCall where
  address : String
  owner : String
  spender : String
  deriving DecidableEq, Repr

/-- The external world the scheme handler interacts with.  `getAddress`
and `parseSignature` are viem helpers (`getAddress` throws on a malformed
address); the remaining members are the `FacilitatorEvmSigner`, with
`writeContract` split by `functionName` and `waitReceipt` returning the
receipt's `status` string keyed by transaction hash.  `nowSec` is
`Math.floor(Date.now() / 1000)`. -/
structure EvmEnv where
  getAddress : String → CallResult String
  parseSignature : String → CallResult ParsedSignature
  verifyTypedData : PermitVerifyCall → CallResult Bool
  writePermit : PermitWriteCall → CallResult String
  writeTransferFrom : TransferFromCall → CallResult String
  waitReceipt : String → CallResult String
  readAllowance : AllowanceCall → CallResult Int
  nowSec : Int

/-- The `payer` reported alongside every verify response:
`authorization?.from`. -/
def verifyPayer (payload : PaymentPayload) : Option String :=
  payload.payload.authorization.bind (·.from_)

/-- Embedding of `UptoEvmScheme.verify`.  The result is `.thrown` when an exception
escapes the method (only the unguarded `getAddress` calls can do that);
the signer's `verifyTypedData` throw is caught and tagged
`invalid_permit_signature`. -/
def uptoVerify (env : EvmEnv) (payload : PaymentPayload)
    (requirements : PaymentRequirements) : CallResult VerifyResponse :=
  let payer := verifyPayer payload
  if payload.accepted.scheme ≠ "upto" ∨ requirements.scheme ≠ "upto" then
    .ok ⟨false, some "unsupported_scheme", payer⟩
  else match payload.payload.authorization with
  | none => .ok ⟨false, some "invalid_upto_evm_payload", payer⟩
  | some auth =>
    if jsFalsy payload.payload.signature then
      .ok ⟨false, some "invalid_upto_evm_payload", payer⟩
    else
      let spender := match auth.to_ with
        | some t => t
        | none => requirements.payTo
      match auth.from_ with
      | none => .ok ⟨false, some "invalid_upto_evm_payload", payer⟩
      | some owner =>
        if owner = "" ∨ spender = "" ∨ jsFalsy auth.nonce ∨
            jsFalsy auth.validBefore ∨ jsFalsy auth.value then
          .ok ⟨false, some "invalid_upto_evm_payload", payer⟩
        else match env.getAddress owner with
        | .thrown e => .thrown e
        | .ok ownerAddress =>
        match env.getAddress spender with
        | .thrown e => .thrown e
        | .ok spenderAddress =>
        if payload.accepted.network ≠ requirements.network then
          .ok ⟨false, some "network_mismatch", payer⟩
        else
          let name := requirements.extra.bind (·.name)
          let version := requirements.extra.bind (·.version)
          if jsFalsy name ∨ jsFalsy version then
            .ok ⟨false, some "missing_eip712_domain", payer⟩
          else match env.getAddress requirements.payTo with
          | .thrown e => .thrown e
          | .ok payToAddress =>
          if spenderAddress ≠ payToAddress then
            .ok ⟨false, some "recipient_mismatch", payer⟩
          else
            let cap := toBigInt auth.value
            let requiredAmount := toBigInt (some requirements.amount)
            if cap < requiredAmount then
              .ok ⟨false, some "cap_too_low", payer⟩
            else
              let maxAmountRequired := toBigInt
                ((requirements.extra.bind (·.maxAmountRequired)).orElse
                  (fun _ => requirements.extra.bind (·.maxAmount)))
              if 0 < maxAmountRequired ∧ cap < maxAmountRequired then
                .ok ⟨false, some "cap_below_required_max", payer⟩
              else
                let deadline := toBigInt auth.validBefore
                if deadline < env.nowSec + 6 then
                  .ok ⟨false, some "authorization_expired", payer⟩
                else match chainIdOf requirements.network with
                | none => .ok ⟨false, some "invalid_chain_id", payer⟩
                | some chainId =>
                  match env.getAddress requirements.asset with
                  | .thrown e => .thrown e
                  | .ok assetAddress =>
                  match env.verifyTypedData
                      ⟨ownerAddress, name.getD "", version.getD "", chainId,
                        assetAddress, ownerAddress, spenderAddress, cap,
                        toBigInt auth.nonce, deadline,
                        payload.payload.signature.getD ""⟩ with
                  | .ok true => .ok ⟨true, none, payer⟩
                  | .ok false =>
                    .ok ⟨false, some "invalid_permit_signature", payer⟩
                  | .thrown _ =>
                    .ok ⟨false, some "invalid_permit_signature", payer⟩

/-- The tail of `UptoEvmScheme.settle` after the verify, cap, and
signature-shape checks: the permit attempt, the allowance fallback on a
permit throw, and the `transferFrom` submission.  All throws in this tail
are caught by the source's two `try` blocks, so it is a total function
into `SettleResponse`. -/
def uptoSettleAfterChecks (env : EvmEnv) (network payTo payer spender
    erc20Address : String) (cap deadline totalSpent v : Int)
    (sigR sigS : String) : SettleResponse :=
  let permitOutcome : CallResult Unit :=
    match env.writePermit
        ⟨erc20Address, payer, spender, cap, deadline, v, sigR, sigS⟩ with
    | .thrown e => .thrown e
    | .ok permitTx =>
      match env.waitReceipt permitTx with
      | .thrown e => .thrown e
      | .ok _ => .ok ()
  let fallbackEarly : Option SettleResponse :=
    match permitOutcome with
    | .ok _ => none
    | .thrown _ =>
      match env.readAllowance ⟨erc20Address, payer, spender⟩ with
      | .ok allowance =>
        if allowance < totalSpent then
          some ⟨false, some "insufficient_allowance", "", network, some payer⟩
        else none
      | .thrown _ =>
        some ⟨false, some "permit_failed", "", network, some payer⟩
  match fallbackEarly with
  | some resp => resp
  | none =>
    let transferOutcome : CallResult SettleResponse :=
      match env.getAddress payTo with
      | .thrown e => .thrown e
      | .ok payToAddress =>
        match env.writeTransferFrom
            ⟨erc20Address, payer, payToAddress, totalSpent⟩ with
        | .thrown e => .thrown e
        | .ok tx =>
          match env.waitReceipt tx with
          | .thrown e => .thrown e
          | .ok status =>
            if status ≠ "success" then
              .ok ⟨false, some "invalid_transaction_state", tx, network,
                some payer⟩
            else .ok ⟨true, none, tx, network, some payer⟩
    match transferOutcome with
    | .ok resp => resp
    | .thrown _ =>
      ⟨false, some "transaction_failed", "", network, some payer⟩

/-- Embedding of `UptoEvmScheme.settle`: re-verify, early tagged failure, the
`total_exceeds_cap` re-check, ECDSA signature shape check, then the
permit / allowance / transferFrom tail.  The `.thrown` results model
exceptions escaping the method (propagated verify throws, the unguarded
`getAddress` calls, and the property read on an absent authorization,
which in JavaScript raises a `TypeError`). -/
def uptoSettle (env : EvmEnv) (payload : PaymentPayload)
    (requirements : PaymentRequirements) : CallResult SettleResponse :=
  match uptoVerify env payload requirements with
  | .thrown e => .thrown e
  | .ok verification =>
    if verification.isValid = false then
      .ok ⟨false,
        some (verification.invalidReason.getD "invalid_upto_evm_payload"),
        "", payload.accepted.network, verification.payer⟩
    else match payload.payload.authorization with
    | none => .thrown (.errorWith "TypeError")
    | some auth =>
      match env.getAddress (auth.from_.getD "") with
      | .thrown e => .thrown e
      | .ok payer =>
      match env.getAddress (match auth.to_ with
          | some t => t
          | none => requirements.payTo) with
      | .thrown e => .thrown e
      | .ok spender =>
        let cap := toBigInt auth.value
        let totalSpent := toBigInt (some requirements.amount)
        if cap < totalSpent then
          .ok ⟨false, some "total_exceeds_cap", "",
            payload.accepted.network, some payer⟩
        else match env.getAddress requirements.asset with
        | .thrown e => .thrown e
        | .ok erc20Address =>
          let parsedSig : Option ParsedSignature :=
            match env.parseSignature (payload.payload.signature.getD "") with
            | .ok sig => some sig
            | .thrown _ => none
          match parsedSig with
          | none =>
            .ok ⟨false, some "unsupported_signature_type", "",
              payload.accepted.network, some payer⟩
          | some sig =>
            if (sig.v = none ∨ sig.v = some 0) ∧ sig.yParity = none then
              .ok ⟨false, some "unsupported_signature_type", "",
                payload.accepted.network, some payer⟩
            else
              let v := match sig.v with
                | some n => n
                | none => sig.yParity.getD 0
              .ok (uptoSettleAfterChecks env payload.accepted.network
                requirements.payTo payer spender erc20Address cap
                (toBigInt auth.validBefore) totalSpent v sig.r sig.s)

/-- A model of the external world in which every call succeeds: addresses
are already checksummed (so viem's `getAddress` is the identity on them),
the signature parses to a 65-byte ECDSA one with `v = 27`, the permit
signature checks out, transactions land with receipt status `"success"`,
and the allowance covers the sample cap. -/
def envOk : EvmEnv :=
  { getAddress := fun a => .ok a
    parseSignature := fun _ => .ok ⟨some 27, none, "0xr", "0xs"⟩
    verifyTypedData := fun _ => .ok true
    writePermit := fun _ => .ok "0xpermit-tx"
    writeTransferFrom := fun _ => .ok "0xtransfer-tx"
    waitReceipt := fun _ => .ok "success"
    readAllowance := fun _ => .ok 1000000
    nowSec := 1700000000 }

/-- A model of viem's `getAddress`: a string that is not `"0x"` followed
by 40 hexadecimal digits raises `InvalidAddressError`; a well-formed
address is returned (checksum re-casing is not modelled, so the input is
returned unchanged). -/
def getAddressModel (a : String) : CallResult String :=
  if a.data.take 2 = ['0', 'x'] ∧ (a.data.drop 2).length = 40 ∧
      (a.data.drop 2).all (fun c =>
        c.isDigit ∨ ('a' ≤ c ∧ c ≤ 'f') ∨ ('A' ≤ c ∧ c ≤ 'F')) then
    .ok a
  else .thrown (.errorWith "InvalidAddressError")

/-- The environment `envOk` with the address-validating `getAddress`. -/
def envStrict : EvmEnv := { envOk with getAddress := getAddressModel }

/-- A payload whose authorization `from` is a non-empty but malformed
address string. -/
def payloadBadFrom : PaymentPayload :=
  { samplePayload with
      payload := { authorization := some { sampleAuth with from_ := some "0xzz" }
                   signature := some "0xsig" } }

/-- Requirements whose `amount` is not a parseable integer. -/
def reqBadAmount : PaymentRequirements :=
  { sampleRequirements with amount := "not-a-number" }

/-- The sample payload pinned to `reqBadAmount`. -/
def payloadBadAmount : PaymentPayload :=
  { samplePayload with accepted := reqBadAmount }

/-- Spec-side description of the settle tail, written from the claim's
(and spec §4.3's) wording: first call
`permit(owner, spender, cap, deadline, v, r, s)` on the ERC-20 and await
the receipt; if that throws, read `allowance(owner, spender)` — returning
`insufficient_allowance` when it is below `totalSpent` and
`permit_failed` when the read itself throws; when the allowance suffices
(or permit succeeded), call `transferFrom(owner, payTo, totalSpent)`:
`invalid_transaction_state` with the transaction hash when the receipt
status is not `"success"`, `transaction_failed` with empty transaction on
any throw during submission (the source normalizes `payTo` inside the
same `try`, so its failure is also a submission throw), and a successful
tagged response otherwise. -/
def settleSpecPermitFallback (env : EvmEnv) (network payTo payer spender
    erc20Address : String) (cap deadline totalSpent v : Int)
    (sigR sigS : String) : SettleResponse :=
  let transferStage : SettleResponse :=
    match ((match env.getAddress payTo with
      | .thrown e => .thrown e
      | .ok payToAddress =>
        match env.writeTransferFrom
            ⟨erc20Address, payer, payToAddress, totalSpent⟩ with
        | .thrown e => .thrown e
        | .ok tx =>
          match env.waitReceipt tx with
          | .thrown e => .thrown e
          | .ok status => .ok (tx, status)) :
        CallResult (String × String)) with
    | .thrown _ =>
      ⟨false, some "transaction_failed", "", network, some payer⟩
    | .ok (tx, status) =>
      if status ≠ "success" then
        ⟨false, some "invalid_transaction_state", tx, network, some payer⟩
      else ⟨true, none, tx, network, some payer⟩
  match ((match env.writePermit
      ⟨erc20Address, payer, spender, cap, deadline, v, sigR, sigS⟩ with
    | .thrown e => .thrown e
    | .ok permitTx => env.waitReceipt permitTx) : CallResult String) with
  | .ok _ => transferStage
  | .thrown _ =>
    match env.readAllowance ⟨erc20Address, payer, spender⟩ with
    | .thrown _ => ⟨false, some "permit_failed", "", network, some payer⟩
    | .ok allowance =>
      if allowance < totalSpent then
        ⟨false, some "insufficient_allowance", "", network, some payer⟩
      else transferStage

/-- Reading back the key just written returns the written session. -/
theorem storeGet_storeSet_self (store : UptoSessionStore) (id : String)
    (s : Session) : storeGet (storeSet store id s) id = some s := by
  simp [storeGet, storeSet]

/-- The status written by the final step of the orchestrator is `"closed"`
exactly when its condition holds, and is always one of `"closed"`,
`"open"`. -/
theorem closedOpenIte (c : Prop) [Decidable c] :
    ((if c then "closed" else "open") = "closed" ↔ c) ∧
    ((if c then "closed" else "open") = "closed" ∨
      (if c then "closed" else "open") = "open") := by
  split <;> simp_all

/-- C1: `settleUptoSession` preserves the session cap invariant: if the
stored session satisfies `settledTotal + pendingSpent ≤ cap` before the
call, the session persisted under the same id after the call still does.
On a successful settlement `settledTotal` grows by exactly the old
`pendingSpent` while `pendingSpent` becomes `0`; on failure both are
unchanged; in every case the sum never increases and `cap` is untouched. -/
theorem settleUptoSession_preserves_cap_invariant
    (store : UptoSessionStore) (client : UptoFacilitatorClient)
    (sessionId reason : String) (closeAfter : Bool)
    (deadlineBufferSec nowMs : Int) (s : Session)
    (hs : storeGet store sessionId = some s)
    (hinv : s.settledTotal + s.pendingSpent ≤ s.cap) :
    ∃ s', storeGet (settleUptoSession store client sessionId reason
        closeAfter deadlineBufferSec nowMs).store sessionId = some s' ∧
      s'.settledTotal + s'.pendingSpent ≤ s'.cap := by
  unfold settleUptoSession
  rw [hs]
  by_cases hopen : s.status = "open"
  · simp only [hopen, ne_eq, not_true_eq_false, if_false, ite_not]
    by_cases hp : s.pendingSpent ≤ 0
    · by_cases hc : closeAfter <;>
        simp_all [storeGet_storeSet_self, storeGet, storeSet]
    · simp only [if_pos hopen, if_neg hp]
      refine ⟨_, storeGet_storeSet_self _ _ _, ?_⟩
      split <;> simp <;> omega
  · simp only [ite_not, if_neg hopen]
    exact ⟨s, hs, hinv⟩

/-- Closed witness for C1: the invariant survives a successful settlement
of the sample session. -/
theorem settleUptoSession_preserves_cap_invariant_witness :
    ∃ s', storeGet (settleUptoSession sampleStore clientOk "s1" "periodic"
        false 60 1700000000000).store "s1" = some s' ∧
      s'.settledTotal + s'.pendingSpent ≤ s'.cap :=
  settleUptoSession_preserves_cap_invariant sampleStore clientOk "s1"
    "periodic" false 60 1700000000000 sampleSession (by rfl) (by decide)

/-- C2: Settlement failure is atomic and non-fatal: for an open session
with positive `pendingSpent`, if the client's settle throws or returns
`success: false`, the persisted session keeps `settledTotal` and
`pendingSpent` unchanged and records a `lastSettlement` whose receipt has
`success = false`; when the client threw, the receipt is the synthesized
one (`errorReason` = the `Error`'s message, or `"settlement_failed"` for a
non-`Error` throw; `transaction` = `""`).  `settleUptoSession` never
throws to its caller: the embedding is a total function (every client
throw is consumed by the `catch` branch of the definition). -/
theorem settleUptoSession_failure_atomic
    (store : UptoSessionStore) (client : UptoFacilitatorClient)
    (sessionId reason : String) (closeAfter : Bool)
    (deadlineBufferSec nowMs : Int) (s : Session)
    (hs : storeGet store sessionId = some s)
    (hopen : s.status = "open") (hpos : 0 < s.pendingSpent)
    (hfail : ∀ r, client s.paymentPayload
        { s.paymentRequirements with amount := toString s.pendingSpent } =
          .ok r → r.success = false) :
    ∃ s', storeGet (settleUptoSession store client sessionId reason
        closeAfter deadlineBufferSec nowMs).store sessionId = some s' ∧
      s'.settledTotal = s.settledTotal ∧
      s'.pendingSpent = s.pendingSpent ∧
      ∃ ls, s'.lastSettlement = some ls ∧ ls.receipt.success = false ∧
        ∀ e, client s.paymentPayload
            { s.paymentRequirements with amount := toString s.pendingSpent } =
              .thrown e →
          ls.receipt =
            { success := false
              errorReason := some (match e with
                | .errorWith msg => msg
                | .nonError => "settlement_failed")
              transaction := ""
              network := s.paymentPayload.accepted.network
              payer := none } := by
  unfold settleUptoSession
  rw [hs]
  have hp : ¬ s.pendingSpent ≤ 0 := not_le.mpr hpos
  simp only [hopen, ne_eq, not_true_eq_false, if_false, ite_not, if_pos rfl,
    if_neg hp]
  cases hcall : client s.paymentPayload
      { s.paymentRequirements with amount := toString s.pendingSpent } with
  | ok r =>
    have hr := hfail r hcall
    refine ⟨_, storeGet_storeSet_self _ _ _, ?_⟩
    simp_all
  | thrown e =>
    refine ⟨_, storeGet_storeSet_self _ _ _, ?_⟩
    simp_all

/-- Closed witness for C2 at a throwing client. -/
theorem settleUptoSession_failure_atomic_witness :
    ∃ s', storeGet (settleUptoSession sampleStore clientThrows "s1" "sweep"
        false 60 1700000000000).store "s1" = some s' ∧
      s'.settledTotal = sampleSession.settledTotal ∧
      s'.pendingSpent = sampleSession.pendingSpent ∧
      ∃ ls, s'.lastSettlement = some ls ∧ ls.receipt.success = false ∧
        ∀ e, clientThrows sampleSession.paymentPayload
            { sampleSession.paymentRequirements with
                amount := toString sampleSession.pendingSpent } = .thrown e →
          ls.receipt =
            { success := false
              errorReason := some (match e with
                | .errorWith msg => msg
                | .nonError => "settlement_failed")
              transaction := ""
              network := sampleSession.paymentPayload.accepted.network
              payer := none } :=
  settleUptoSession_failure_atomic sampleStore clientThrows "s1" "sweep"
    false 60 1700000000000 sampleSession (by rfl) (by rfl) (by decide)
    (fun r h => by simp [clientThrows] at h)

/-- C3: Batched settlement: for an open session with
`pendingSpent = p > 0`, the orchestrator calls the facilitator client
exactly once, with the session's stored `paymentPayload` and the stored
`paymentRequirements` whose `amount` is overridden to the decimal string
of `p` (`toString` of a positive `Int` is its decimal digit string); and
when the client reports success, the persisted session has
`settledTotal` increased by exactly `p` and `pendingSpent = 0`. -/
theorem settleUptoSession_batched_amount
    (store : UptoSessionStore) (client : UptoFacilitatorClient)
    (sessionId reason : String) (closeAfter : Bool)
    (deadlineBufferSec nowMs : Int) (s : Session)
    (hs : storeGet store sessionId = some s)
    (hopen : s.status = "open") (hpos : 0 < s.pendingSpent) :
    (settleUptoSession store client sessionId reason closeAfter
        deadlineBufferSec nowMs).calls =
      [(s.paymentPayload,
        { s.paymentRequirements with amount := toString s.pendingSpent })] ∧
    ∀ r, client s.paymentPayload
        { s.paymentRequirements with amount := toString s.pendingSpent } =
          .ok r → r.success = true →
      ∃ s', storeGet (settleUptoSession store client sessionId reason
          closeAfter deadlineBufferSec nowMs).store sessionId = some s' ∧
        s'.settledTotal = s.settledTotal + s.pendingSpent ∧
        s'.pendingSpent = 0 := by
  unfold settleUptoSession
  rw [hs]
  have hp : ¬ s.pendingSpent ≤ 0 := not_le.mpr hpos
  simp only [hopen, ne_eq, not_true_eq_false, if_false, ite_not, if_pos rfl,
    if_neg hp]
  refine ⟨by trivial, fun r hcall hr => ?_⟩
  rw [hcall]
  refine ⟨_, storeGet_storeSet_self _ _ _, ?_⟩
  simp [hr]

/-- Closed witness for C3 at a succeeding client. -/
theorem settleUptoSession_batched_amount_witness :
    (settleUptoSession sampleStore clientOk "s1" "sweep" false 60
        1700000000000).calls =
      [(sampleSession.paymentPayload,
        { sampleSession.paymentRequirements with
            amount := toString sampleSession.pendingSpent })] ∧
    ∀ r, clientOk sampleSession.paymentPayload
        { sampleSession.paymentRequirements with
            amount := toString sampleSession.pendingSpent } = .ok r →
        r.success = true →
      ∃ s', storeGet (settleUptoSession sampleStore clientOk "s1" "sweep"
          false 60 1700000000000).store "s1" = some s' ∧
        s'.settledTotal = sampleSession.settledTotal +
          sampleSession.pendingSpent ∧
        s'.pendingSpent = 0 :=
  settleUptoSession_batched_amount sampleStore clientOk "s1" "sweep" false
    60 1700000000000 sampleSession (by rfl) (by rfl) (by decide)

/-- C4: Closed is terminal for the orchestrator: when the id is absent,
or the stored session's status is not `"open"` (`"closed"`, `"settling"`,
or anything else), `settleUptoSession` performs no store write (the
resulting store is the input store, so every field of every session is
unchanged) and issues no facilitator call. -/
theorem settleUptoSession_nonopen_noop
    (store : UptoSessionStore) (client : UptoFacilitatorClient)
    (sessionId reason : String) (closeAfter : Bool)
    (deadlineBufferSec nowMs : Int)
    (hns : ∀ s, storeGet store sessionId = some s → s.status ≠ "open") :
    (settleUptoSession store client sessionId reason closeAfter
        deadlineBufferSec nowMs).store = store ∧
    (settleUptoSession store client sessionId reason closeAfter
        deadlineBufferSec nowMs).calls = [] := by
  unfold settleUptoSession
  cases hs : storeGet store sessionId with
  | none => simp
  | some s => simp [hns s hs]

/-- Closed witness for C4 at a store with a closed session. -/
theorem settleUptoSession_nonopen_noop_witness :
    (settleUptoSession
        (storeSet sampleStore "s1" { sampleSession with status := "closed" })
        clientOk "s1" "sweep" true 60 1700000000000).store =
      storeSet sampleStore "s1" { sampleSession with status := "closed" } ∧
    (settleUptoSession
        (storeSet sampleStore "s1" { sampleSession with status := "closed" })
        clientOk "s1" "sweep" true 60 1700000000000).calls = [] :=
  settleUptoSession_nonopen_noop
    (storeSet sampleStore "s1" { sampleSession with status := "closed" })
    clientOk "s1" "sweep" true 60 1700000000000
    (fun s h => by
      rw [storeGet_storeSet_self] at h
      cases h
      decide)

/-- C5: Final status rule: for an open session with positive
`pendingSpent`, the persisted session's status is `"closed"` exactly when
`closeAfter` holds, or the possibly-updated `settledTotal` has reached
`cap`, or the deadline is within `deadlineBufferSec` of now; otherwise it
is `"open"`.  In particular it is never left `"settling"`.  (The source's
default arguments are `closeAfter = false`, `deadlineBufferSec = 60`; the
theorem covers all values.) -/
theorem settleUptoSession_final_status
    (store : UptoSessionStore) (client : UptoFacilitatorClient)
    (sessionId reason : String) (closeAfter : Bool)
    (deadlineBufferSec nowMs : Int) (s : Session)
    (hs : storeGet store sessionId = some s)
    (hopen : s.status = "open") (hpos : 0 < s.pendingSpent) :
    ∃ s', storeGet (settleUptoSession store client sessionId reason
        closeAfter deadlineBufferSec nowMs).store sessionId = some s' ∧
      (s'.status = "closed" ↔
        (closeAfter = true ∨ s'.cap ≤ s'.settledTotal ∨
          s'.deadline ≤ Int.fdiv nowMs 1000 + deadlineBufferSec)) ∧
      (s'.status = "closed" ∨ s'.status = "open") := by
  unfold settleUptoSession
  rw [hs]
  have hp : ¬ s.pendingSpent ≤ 0 := not_le.mpr hpos
  simp only [hopen, ne_eq, not_true_eq_false, if_false, ite_not, if_pos rfl,
    if_neg hp]
  refine ⟨_, storeGet_storeSet_self _ _ _, ?_, ?_⟩
  · exact (closedOpenIte _).1
  · exact (closedOpenIte _).2

/-- Closed witness for C5 at the sample session and a succeeding client. -/
theorem settleUptoSession_final_status_witness :
    ∃ s', storeGet (settleUptoSession sampleStore clientOk "s1" "sweep"
        false 60 1700000000000).store "s1" = some s' ∧
      (s'.status = "closed" ↔
        (false = true ∨ s'.cap ≤ s'.settledTotal ∨
          s'.deadline ≤ Int.fdiv 1700000000000 1000 + 60)) ∧
      (s'.status = "closed" ∨ s'.status = "open") :=
  settleUptoSession_final_status sampleStore clientOk "s1" "sweep" false 60
    1700000000000 sampleSession (by rfl) (by rfl) (by decide)

/-- Inversion for `uptoVerify`: a returned response either is valid — and
then the authorization is present and its parsed cap is at least the
parsed `requirements.amount` — or is invalid with one of the scheme's
verify failure tags. -/
theorem uptoVerify_ok_inv (env : EvmEnv) (p : PaymentPayload)
    (r : PaymentRequirements) (resp : VerifyResponse)
    (h : uptoVerify env p r = .ok resp) :
    (resp.isValid = true ∧ resp.invalidReason = none ∧
      ∃ auth, p.payload.authorization = some auth ∧
        ¬ toBigInt auth.value < toBigInt (some r.amount)) ∨
    (resp.isValid = false ∧ ∃ reason, resp.invalidReason = some reason ∧
      (reason = "unsupported_scheme" ∨ reason = "invalid_upto_evm_payload" ∨
        reason = "network_mismatch" ∨ reason = "missing_eip712_domain" ∨
        reason = "recipient_mismatch" ∨ reason = "cap_too_low" ∨
        reason = "cap_below_required_max" ∨
        reason = "authorization_expired" ∨ reason = "invalid_chain_id" ∨
        reason = "invalid_permit_signature")) := by
  unfold uptoVerify at h
  dsimp only at h
  repeat' split at h
  all_goals (try cases h)
  all_goals
    first
      | exact Or.inl ⟨rfl, rfl, ⟨_, by assumption, by assumption⟩⟩
      | exact Or.inr ⟨rfl, ⟨_, rfl, by simp⟩⟩

/-- No response produced by the permit/allowance/transferFrom tail of
`settle` carries the `total_exceeds_cap` tag. -/
theorem uptoSettleAfterChecks_ne_total_exceeds_cap (env : EvmEnv)
    (network payTo payer spender erc20Address : String)
    (cap deadline totalSpent v : Int) (sigR sigS : String) :
    (uptoSettleAfterChecks env network payTo payer spender erc20Address cap
        deadline totalSpent v sigR sigS).errorReason ≠
      some "total_exceeds_cap" := by
  unfold uptoSettleAfterChecks
  dsimp only
  repeat' split
  all_goals (try (rename_i heq; repeat' split at heq))
  all_goals (try cases heq)
  all_goals simp

/-- C10: The `total_exceeds_cap` branch of `settle` is unreachable:
no response `settle` returns carries that tag, because `settle` first
re-runs `verify`, whose `cap_too_low` check already rejects whenever the
parsed `requirements.amount` exceeds the parsed `authorization.value` —
the same comparison the branch re-tests. -/
theorem uptoSettle_never_total_exceeds_cap (env : EvmEnv)
    (p : PaymentPayload) (r : PaymentRequirements) (resp : SettleResponse)
    (h : uptoSettle env p r = .ok resp) :
    resp.errorReason ≠ some "total_exceeds_cap" := by
  unfold uptoSettle at h
  cases hv : uptoVerify env p r with
  | thrown e => rw [hv] at h; dsimp only at h; cases h
  | ok verification =>
    rw [hv] at h
    dsimp only at h
    rcases uptoVerify_ok_inv env p r verification hv with
      ⟨hval, -, auth, hauth, hcap⟩ | ⟨hval, reason, hreason, htags⟩
    · rw [hval] at h
      rw [if_neg (by simp)] at h
      rw [hauth] at h
      dsimp only at h
      repeat' split at h
      all_goals (try cases h)
      all_goals
        first
          | (exact absurd (by assumption) hcap)
          | (exact uptoSettleAfterChecks_ne_total_exceeds_cap
              _ _ _ _ _ _ _ _ _ _ _ _)
          | simp
    · rw [hval] at h
      rw [if_pos rfl] at h
      cases h
      rw [SettleResponse.errorReason, hreason]
      rcases htags with rfl|rfl|rfl|rfl|rfl|rfl|rfl|rfl|rfl|rfl <;> simp

/-- Closed witness for C10: the happy-path settlement of the sample
session, whose response indeed does not carry `total_exceeds_cap`. -/
theorem uptoSettle_never_total_exceeds_cap_witness :
    ({ success := true, errorReason := none, transaction := "0xtransfer-tx"
       network := "eip155:8453"
       payer := some "0x00000000000000000000000000000000000000a0" } :
      SettleResponse).errorReason ≠ some "total_exceeds_cap" :=
  uptoSettle_never_total_exceeds_cap envOk samplePayload sampleRequirements
    _ (by rfl)

/-- C7 counterexample: With the address-validating `getAddress`, a
payload whose `authorization.from` is the non-empty malformed string
`"0xzz"` passes the presence checks and reaches the unguarded
`getAddress(owner)` call, whose `InvalidAddressError` escapes
`UptoEvmScheme.verify` uncaught — the handler raises instead of
returning a tagged `VerifyResponse`. -/
theorem uptoVerify_throws_on_malformed_address :
    uptoVerify envStrict payloadBadFrom sampleRequirements =
      .thrown (.errorWith "InvalidAddressError") := by rfl

/-- Helper: `verify` cannot evaluate to a throw when `getAddress` never throws:
every other external call it makes is wrapped in a `try`/`catch` that
converts the throw into a tagged response. -/
theorem uptoVerify_ne_thrown (env : EvmEnv)
    (hga : ∀ a, ∃ out, env.getAddress a = .ok out)
    (p : PaymentPayload) (r : PaymentRequirements) (e : JsThrown)
    (h : uptoVerify env p r = .thrown e) : False := by
  unfold uptoVerify at h
  dsimp only at h
  repeat' split at h
  all_goals (try cases h)
  all_goals
    (rename_i heq
     obtain ⟨out, hout⟩ := hga _
     rw [heq] at hout
     cases hout)

/-- Helper: `settle` cannot evaluate to a throw when `getAddress` never throws:
the verify throw cannot happen, a valid verify guarantees the
authorization is present (so the `TypeError` property read is
unreachable), and the permit / allowance / transferFrom tail catches
everything. -/
theorem uptoSettle_ne_thrown (env : EvmEnv)
    (hga : ∀ a, ∃ out, env.getAddress a = .ok out)
    (p : PaymentPayload) (r : PaymentRequirements) (e : JsThrown)
    (h : uptoSettle env p r = .thrown e) : False := by
  unfold uptoSettle at h
  cases hv : uptoVerify env p r with
  | thrown e2 => exact uptoVerify_ne_thrown env hga p r e2 hv
  | ok vresp =>
    rw [hv] at h
    dsimp only at h
    rcases uptoVerify_ok_inv env p r vresp hv with
      ⟨hval, -, auth, hauth, -⟩ | ⟨hfalse, -⟩
    · rw [hval] at h
      rw [if_neg (by simp)] at h
      rw [hauth] at h
      dsimp only at h
      repeat' split at h
      all_goals (try cases h)
      all_goals
        (rename_i heq
         obtain ⟨out, hout⟩ := hga _
         rw [heq] at hout
         cases hout)
    · rw [if_pos hfalse] at h
      cases h

/-- C7 as amended: Provided the viem `getAddress` helper returns
normally on every string it is given (equivalently: the address-shaped
fields of the inputs are well-formed), `UptoEvmScheme.verify` and
`UptoEvmScheme.settle` always return a tagged response and never let an
exception escape; all exceptions of the signer calls and of signature
parsing are converted into tagged responses.  (Unamended, the claim fails:
see the counterexample, where a malformed `authorization.from` makes the
unguarded `getAddress` call throw out of `verify`.) -/
theorem uptoSchemeHandlers_no_throw (env : EvmEnv)
    (hga : ∀ a, ∃ out, env.getAddress a = .ok out)
    (p : PaymentPayload) (r : PaymentRequirements) :
    (∃ resp, uptoVerify env p r = .ok resp) ∧
    (∃ resp, uptoSettle env p r = .ok resp) := by
  constructor
  · cases hv : uptoVerify env p r with
    | ok resp => exact ⟨resp, rfl⟩
    | thrown e => exact (uptoVerify_ne_thrown env hga p r e hv).elim
  · cases hs : uptoSettle env p r with
    | ok resp => exact ⟨resp, rfl⟩
    | thrown e => exact (uptoSettle_ne_thrown env hga p r e hs).elim

/-- Closed witness for the amended C7 at a total `getAddress`. -/
theorem uptoSchemeHandlers_no_throw_witness :
    (∃ resp, uptoVerify envOk samplePayload sampleRequirements = .ok resp) ∧
    (∃ resp, uptoSettle envOk samplePayload sampleRequirements = .ok resp) :=
  uptoSchemeHandlers_no_throw envOk (fun a => ⟨a, rfl⟩) samplePayload
    sampleRequirements

/-- C8 counterexample: a `requirements.amount` of `"not-a-number"` is
unparseable, so it is converted to `0` — and then verify *succeeds*: the
cap comparison `cap < 0` is false, so the zero does not fail the
comparison that consumes the field, contradicting the claim's "such a
zero then fails the subsequent comparison". -/
theorem uptoVerify_zero_amount_passes :
    parseBigIntString "not-a-number" = none ∧
    toBigInt (some "not-a-number") = 0 ∧
    uptoVerify envOk payloadBadAmount reqBadAmount =
      .ok ⟨true, none, some "0x00000000000000000000000000000000000000a0"⟩ :=
  ⟨by rfl, by rfl, by rfl⟩

/-- C8 as amended: Every integer field is parsed by the total
`toBigInt`, which yields `0` for a missing, empty, or unparseable input
and the denoted value otherwise.  A zero does not always fail the
comparison that consumes the field: a zero `validBefore` always fails the
freshness comparison (for a non-negative clock), but a zero
`requirements.amount` passes the cap comparison whenever the cap is
non-negative (and a zero `maxAmountRequired` disables its check
entirely). -/
theorem toBigInt_saturates_to_zero :
    toBigInt none = 0 ∧ toBigInt (some "") = 0 ∧
    (∀ s, parseBigIntString s = none → toBigInt (some s) = 0) ∧
    (∀ s n, parseBigIntString s = some n → toBigInt (some s) = n) ∧
    (∀ vb : Option String, toBigInt vb = 0 →
      ∀ now : Int, 0 ≤ now → toBigInt vb < now + 6) ∧
    (∀ amount : Option String, toBigInt amount = 0 →
      ∀ cap : Int, 0 ≤ cap → ¬ cap < toBigInt amount) := by
  refine ⟨rfl, rfl, ?_, ?_, ?_, ?_⟩
  · intro s h
    by_cases hs : s = "" <;> simp [toBigInt, hs, h]
  · intro s n h
    have hs : s ≠ "" := by
      intro hs
      rw [hs] at h
      cases h
    simp [toBigInt, hs, h]
  · intro vb h now hnow
    rw [h]
    omega
  · intro amount h cap hcap
    rw [h]
    omega

/-- Closed witness for the amended C8: an unparseable decimal saturates
to zero. -/
theorem toBigInt_saturates_to_zero_witness :
    toBigInt (some "junk") = 0 :=
  toBigInt_saturates_to_zero.2.2.1 "junk" (by rfl)

/-- C9: Deadline freshness boundary: with every check before the
expiry test passing, `verify` rejects with `authorization_expired`
exactly when the parsed `validBefore` is strictly below `now + 6`
seconds (so `validBefore = now + 5` fails and `validBefore = now + 7` —
indeed already `now + 6` — passes this check). -/
theorem uptoVerify_deadline_boundary (env : EvmEnv) (p : PaymentPayload)
    (r : PaymentRequirements) (auth : UptoEvmAuthorization)
    (owner ownerAddress spenderAddress payToAddress : String)
    (h1 : p.accepted.scheme = "upto") (h2 : r.scheme = "upto")
    (hauth : p.payload.authorization = some auth)
    (hsig : jsFalsy p.payload.signature = false)
    (hfrom : auth.from_ = some owner)
    (hfields : ¬(owner = "" ∨
      (match auth.to_ with | some t => t | none => r.payTo) = "" ∨
      jsFalsy auth.nonce = true ∨ jsFalsy auth.validBefore = true ∨
      jsFalsy auth.value = true))
    (hga1 : env.getAddress owner = .ok ownerAddress)
    (hga2 : env.getAddress
      (match auth.to_ with | some t => t | none => r.payTo) =
        .ok spenderAddress)
    (hnet : p.accepted.network = r.network)
    (hdom : ¬(jsFalsy (r.extra.bind (·.name)) = true ∨
      jsFalsy (r.extra.bind (·.version)) = true))
    (hga3 : env.getAddress r.payTo = .ok payToAddress)
    (hrecip : spenderAddress = payToAddress)
    (hcap : ¬ toBigInt auth.value < toBigInt (some r.amount))
    (hmax : ¬(0 < toBigInt ((r.extra.bind (·.maxAmountRequired)).orElse
        (fun _ => r.extra.bind (·.maxAmount))) ∧
      toBigInt auth.value < toBigInt ((r.extra.bind
        (·.maxAmountRequired)).orElse
        (fun _ => r.extra.bind (·.maxAmount))))) :
    uptoVerify env p r =
        .ok ⟨false, some "authorization_expired", verifyPayer p⟩ ↔
      toBigInt auth.validBefore < env.nowSec + 6 := by
  unfold uptoVerify
  dsimp only
  rw [h1, h2]
  rw [if_neg (by simp)]
  rw [hauth]
  dsimp only
  rw [hsig]
  rw [if_neg (by simp)]
  rw [hfrom]
  dsimp only
  rw [if_neg hfields]
  rw [hga1]
  dsimp only
  rw [hga2]
  dsimp only
  rw [hnet]
  rw [if_neg (by simp)]
  rw [if_neg hdom]
  rw [hga3]
  dsimp only
  rw [hrecip]
  rw [if_neg (by simp)]
  rw [if_neg hcap]
  rw [if_neg hmax]
  by_cases hd : toBigInt auth.validBefore < env.nowSec + 6
  · rw [if_pos hd]
    simp [hd]
  · rw [if_neg hd]
    constructor
    · intro hcontra
      exfalso
      repeat' split at hcontra
      all_goals (first | cases hcontra | simp at hcontra)
    · intro hcontra
      exact absurd hcontra hd

/-- Closed witness for C9 at the sample inputs (whose `validBefore` is
far in the future, so both sides of the equivalence are false). -/
theorem uptoVerify_deadline_boundary_witness :
    uptoVerify envOk samplePayload sampleRequirements =
        .ok ⟨false, some "authorization_expired",
          verifyPayer samplePayload⟩ ↔
      toBigInt sampleAuth.validBefore < envOk.nowSec + 6 :=
  uptoVerify_deadline_boundary envOk samplePayload sampleRequirements
    sampleAuth "0x00000000000000000000000000000000000000a0"
    "0x00000000000000000000000000000000000000a0"
    "0x00000000000000000000000000000000000000b0"
    "0x00000000000000000000000000000000000000b0"
    (by rfl) (by rfl) (by rfl) (by rfl) (by rfl) (by decide) (by rfl)
    (by rfl) (by rfl) (by decide) (by rfl) (by rfl) (by decide) (by decide)

/-- The two renderings of the `transferFrom` stage — the source's
(`try`/`catch` around an `.ok`-wrapped response) and the spec's (a match
on the submitted transaction and its receipt status) — agree. -/
theorem transferStagesAgree (env : EvmEnv)
    (network payTo payer erc20Address : String) (totalSpent : Int) :
    (match ((match env.getAddress payTo with
      | .thrown e => .thrown e
      | .ok payToAddress =>
        match env.writeTransferFrom
            ⟨erc20Address, payer, payToAddress, totalSpent⟩ with
        | .thrown e => .thrown e
        | .ok tx =>
          match env.waitReceipt tx with
          | .thrown e => .thrown e
          | .ok status =>
            if status ≠ "success" then
              .ok ⟨false, some "invalid_transaction_state", tx, network,
                some payer⟩
            else .ok ⟨true, none, tx, network, some payer⟩) :
        CallResult SettleResponse) with
      | .ok resp => resp
      | .thrown _ =>
        ⟨false, some "transaction_failed", "", network, some payer⟩) =
    (match ((match env.getAddress payTo with
      | .thrown e => .thrown e
      | .ok payToAddress =>
        match env.writeTransferFrom
            ⟨erc20Address, payer, payToAddress, totalSpent⟩ with
        | .thrown e => .thrown e
        | .ok tx =>
          match env.waitReceipt tx with
          | .thrown e => .thrown e
          | .ok status => .ok (tx, status)) :
        CallResult (String × String)) with
      | .thrown _ =>
        ⟨false, some "transaction_failed", "", network, some payer⟩
      | .ok (tx, status) =>
        if status ≠ "success" then
          ⟨false, some "invalid_transaction_state", tx, network, some payer⟩
        else ⟨true, none, tx, network, some payer⟩) := by
  cases env.getAddress payTo with
  | thrown e => rfl
  | ok payToAddress =>
    dsimp only
    cases env.writeTransferFrom
        ⟨erc20Address, payer, payToAddress, totalSpent⟩ with
    | thrown e => rfl
    | ok tx =>
      dsimp only
      cases env.waitReceipt tx with
      | thrown e => rfl
      | ok status =>
        dsimp only
        by_cases hs : status ≠ "success"
        · rw [if_pos hs, if_pos hs]
        · rw [if_neg hs, if_neg hs]

/-- The source's settle tail computes exactly the spec-side
permit-then-fallback description, for all argument values and all
external behaviours. -/
theorem uptoSettleAfterChecks_eq_spec (env : EvmEnv) (network payTo payer
    spender erc20Address : String) (cap deadline totalSpent v : Int)
    (sigR sigS : String) :
    uptoSettleAfterChecks env network payTo payer spender erc20Address cap
      deadline totalSpent v sigR sigS =
    settleSpecPermitFallback env network payTo payer spender erc20Address
      cap deadline totalSpent v sigR sigS := by
  unfold uptoSettleAfterChecks settleSpecPermitFallback
  dsimp only
  cases env.writePermit
      ⟨erc20Address, payer, spender, cap, deadline, v, sigR, sigS⟩ with
  | thrown e =>
    dsimp only
    cases env.readAllowance ⟨erc20Address, payer, spender⟩ with
    | thrown e2 => rfl
    | ok allowance =>
      dsimp only
      by_cases hlt : allowance < totalSpent
      · rw [if_pos hlt, if_pos hlt]
      · rw [if_neg hlt, if_neg hlt]
        dsimp only
        exact transferStagesAgree env network payTo payer erc20Address
          totalSpent
  | ok permitTx =>
    dsimp only
    cases env.waitReceipt permitTx with
    | thrown e =>
      dsimp only
      cases env.readAllowance ⟨erc20Address, payer, spender⟩ with
      | thrown e2 => rfl
      | ok allowance =>
        dsimp only
        by_cases hlt : allowance < totalSpent
        · rw [if_pos hlt, if_pos hlt]
        · rw [if_neg hlt, if_neg hlt]
          dsimp only
          exact transferStagesAgree env network payTo payer erc20Address
            totalSpent
    | ok st =>
      dsimp only
      exact transferStagesAgree env network payTo payer erc20Address
        totalSpent

/-- C6: Permit-then-fallback settle algorithm: once `settle` has
passed re-verification and the signature-shape check, its result is
exactly the spec's permit / allowance-fallback / transferFrom
description, applied to the parsed cap, deadline, and `totalSpent`, the
normalized addresses, and the parsed `(v, r, s)` (with `v` falling back
to `yParity`). -/
theorem uptoSettle_permit_fallback (env : EvmEnv) (p : PaymentPayload)
    (r : PaymentRequirements) (vresp : VerifyResponse)
    (auth : UptoEvmAuthorization) (sig : ParsedSignature)
    (payerAddr spenderAddr erc20Addr : String)
    (hv : uptoVerify env p r = .ok vresp) (hvalid : vresp.isValid = true)
    (hauth : p.payload.authorization = some auth)
    (hfrom : env.getAddress (auth.from_.getD "") = .ok payerAddr)
    (hto : env.getAddress (match auth.to_ with
      | some t => t
      | none => r.payTo) = .ok spenderAddr)
    (hasset : env.getAddress r.asset = .ok erc20Addr)
    (hsig : env.parseSignature (p.payload.signature.getD "") = .ok sig)
    (hshape : ¬((sig.v = none ∨ sig.v = some 0) ∧ sig.yParity = none)) :
    uptoSettle env p r = .ok (settleSpecPermitFallback env
      p.accepted.network r.payTo payerAddr spenderAddr erc20Addr
      (toBigInt auth.value) (toBigInt auth.validBefore)
      (toBigInt (some r.amount))
      (match sig.v with | some n => n | none => sig.yParity.getD 0)
      sig.r sig.s) := by
  have hcap : ¬ toBigInt auth.value < toBigInt (some r.amount) := by
    rcases uptoVerify_ok_inv env p r vresp hv with
      ⟨-, -, auth2, hauth2, hcap2⟩ | ⟨hfalse, -⟩
    · rw [hauth] at hauth2
      cases hauth2
      exact hcap2
    · rw [hvalid] at hfalse
      cases hfalse
  unfold uptoSettle
  rw [hv]
  dsimp only
  rw [hvalid]
  rw [if_neg (by simp)]
  rw [hauth]
  dsimp only
  rw [hfrom]
  dsimp only
  rw [hto]
  dsimp only
  rw [if_neg hcap]
  rw [hasset]
  dsimp only
  rw [hsig]
  dsimp only
  rw [if_neg hshape]
  rw [uptoSettleAfterChecks_eq_spec]

/-- Closed witness for C6: the sample settlement, where permit and
transferFrom both land. -/
theorem uptoSettle_permit_fallback_witness :
    uptoSettle envOk samplePayload sampleRequirements =
      .ok (settleSpecPermitFallback envOk
        sampleRequirements.network sampleRequirements.payTo
        "0x00000000000000000000000000000000000000a0"
        "0x00000000000000000000000000000000000000b0"
        sampleRequirements.asset 1000000 99999999999 250000 27
        "0xr" "0xs") :=
  uptoSettle_permit_fallback envOk samplePayload sampleRequirements
    ⟨true, none, some "0x00000000000000000000000000000000000000a0"⟩
    sampleAuth ⟨some 27, none, "0xr", "0xs"⟩
    "0x00000000000000000000000000000000000000a0"
    "0x00000000000000000000000000000000000000b0"
    sampleRequirements.asset
    (by rfl) (by rfl) (by rfl) (by rfl) (by rfl) (by rfl) (by rfl)
    (by decide)

end Daydreams
